import Mathlib

/-!
Verification of the rehabilitation-department shift scheduler
(`reha-shift-proto3.py` and the local-search variant
`reha-shift-proto3-ono.py`) against its natural-language specification.

The Python sources are shallowly embedded: pure computations become Lean
functions over `Nat`/`Int`/`Rat`; Python float arithmetic on symbol
coefficients and apportionment ratios is modelled by exact rational
arithmetic; the CP-SAT model built by `solve_shift_model` is embedded by its
solution semantics: auxiliary penalty variables such as `over_limit`, or
reified violation booleans, are resolved to the values forced at a
minimizing solution (`max 0 _`, `|_|`, indicator functions), and the
hard constraints on the shift variables are collected into a predicate.
-/

namespace RehaShift

/-! ## Calendar

Embeds `calendar.monthrange(year, month)[1]`, `calendar.weekday(y, m, d)`
and `datetime.weekday()` (Monday = 0, ..., Sunday = 6) on the proleptic
Gregorian calendar, as used by the app. The serial date counts days from
the day before 0001-01-01, so `serialOfDate 1 1 1 = 1`, which was a Monday. -/

def isLeapYear (y : Nat) : Bool :=
  (y % 4 == 0 && y % 100 != 0) || (y % 400 == 0)

def monthLengths (leap : Bool) : List Nat :=
  [31, if leap then 29 else 28, 31, 30, 31, 30, 31, 31, 30, 31, 30, 31]

/-- `calendar.monthrange(y, m)[1]`: number of days in month `m` of year `y`. -/
def daysInMonth (y m : Nat) : Nat :=
  (monthLengths (isLeapYear y)).getD (m - 1) 0

/-- Days in months `1 .. m-1` of year `y`. -/
def daysBeforeMonth (y m : Nat) : Nat :=
  ∑ k in Finset.range (m - 1), daysInMonth y (k + 1)

/-- Number of Feb-29 days in years `1 .. y-1`. -/
def leapDaysBefore (y : Nat) : Nat :=
  (y - 1) / 4 + (y - 1) / 400 - (y - 1) / 100

/-- Serial day number of the Gregorian date `y-m-d` (0001-01-01 is day 1). -/
def serialOfDate (y m d : Nat) : Nat :=
  365 * (y - 1) + leapDaysBefore y + daysBeforeMonth y m + d

/-- Python's `datetime.weekday()` / `calendar.weekday(y, m, d)`:
Monday = 0, ..., Saturday = 5, Sunday = 6. -/
def pyWeekday (y m d : Nat) : Nat :=
  (serialOfDate y m d + 6) % 7

structure Date where
  year : Nat
  month : Nat
  day : Nat
deriving DecidableEq, Repr

/-- `datetime(year, month, 1) - relativedelta(days=1)`: the last day of the
month preceding month `m` of year `y` ("day 0" of the month). -/
def prevMonthLastDay (y m : Nat) : Date :=
  if m = 1 then ⟨y - 1, 12, 31⟩ else ⟨y, m - 1, daysInMonth y (m - 1)⟩

def pyWeekdayOf (dt : Date) : Nat :=
  pyWeekday dt.year dt.month dt.day

/-- Source (`reha-shift-proto3.py` line 300, `reha-shift-proto3-ono.py`
line 359): `is_cross_month_week = prev_month_date.weekday() != 5`. -/
def is_cross_month_week (y m : Nat) : Bool :=
  pyWeekdayOf (prevMonthLastDay y m) != 5

/-- Modelled from the spec's words for claim C5 only: the spec asserts the
flag is true iff day 0 of the month is not a Sunday (Python weekday 6). -/
def cross_month_first_week_spec (y m : Nat) : Bool :=
  pyWeekdayOf (prevMonthLastDay y m) != 6

/-! ## Python numeric helpers -/

/-- Python `int()` applied to a nonnegative-or-negative rational:
truncation toward zero. -/
def pyInt (q : ℚ) : ℤ := if 0 ≤ q then ⌊q⌋ else -⌊-q⌋

/-- Python `round()` on a rational: round half to even (banker's rounding). -/
def pyRound (q : ℚ) : ℤ :=
  if q - ⌊q⌋ < 1 / 2 then ⌊q⌋
  else if 1 / 2 < q - ⌊q⌋ then ⌊q⌋ + 1
  else if ⌊q⌋ % 2 = 0 then ⌊q⌋ else ⌊q⌋ + 1

/-- Indicator of a boolean, as an integer. -/
def ind (b : Bool) : ℤ := if b then 1 else 0

/-- Indicator of a decidable proposition, as an integer (solution value of a
reified CP-SAT boolean). -/
def indP (c : Prop) [Decidable c] : ℤ := if c then 1 else 0

namespace Proto3

/-! ## Data model of `reha-shift-proto3.py`

`Behavior` is one row of the 記号設定 sheet (role behavior): 休日扱い？
(treated as holiday), 希望は絶対？ (request is strict), 勤務係数 (work
coefficient), 出力される記号 (output symbol). `StaffRec` is one row of the
職員一覧 sheet restricted to the columns the solver reads; `requests` is the
resolved `requests_map` (staff id and day to requested role). -/

structure Behavior where
  is_holiday : Bool
  strict : Bool
  coef : ℚ
  output : String
deriving DecidableEq, Repr

structure StaffRec where
  id : String
  job : String
  units : Nat
  employment : String
  hasTitle : Bool
  role1 : Option String
  sundayCap : Option Int
  saturdayCap : Option Int
  weekendCap : Option Int
  prevWeekHolidays : ℚ
deriving DecidableEq, Repr

structure Switches where
  h1_on : Bool
  h2_on : Bool
  h3_on : Bool
  h5_on : Bool
  s0_on : Bool
  s1a_on : Bool
  s1b_on : Bool
  s1c_on : Bool
  s2_on : Bool
  s3_on : Bool
  s4_on : Bool
  s5_on : Bool
  s6_on : Bool
  s7_on : Bool
  high_flat : Bool
deriving DecidableEq, Repr

structure Weights where
  h1 : Int
  h2 : Int
  h3 : Int
  h5 : Int
  hWeekend : Int
  s0 : Int
  s1a : Int
  s1b : Int
  s1c : Int
  s2 : Int
  s3 : Int
  s4 : Int
  s5 : Int
  s6 : Int
  s6heavy : Int
  s7 : Int
  tolerance : Int
deriving DecidableEq, Repr

structure Targets where
  sunPT : Int
  sunOT : Int
  sunST : Int
  satPT : Int
  satOT : Int
  satST : Int
deriving DecidableEq, Repr

structure Params where
  year : Nat
  month : Nat
  staffList : List StaffRec
  symbolSettings : List (String × Behavior)
  requests : String → Nat → Option String
  sw : Switches
  w : Weights
  targets : Targets
  eventAll : Nat → Int
  eventPT : Nat → Int
  eventOT : Nat → Int
  eventST : Nat → Int
  is_saturday_special : Bool

/-- A CP-SAT solution: `x s d = true` iff staff `s` works on day `d`. -/
abbrev Assignment := String → Nat → Bool

def numDays (p : Params) : Nat := daysInMonth p.year p.month

def days (p : Params) : List Nat := List.range' 1 (numDays p)

def sundays (p : Params) : List Nat :=
  (days p).filter (fun d => pyWeekday p.year p.month d == 6)

def saturdays (p : Params) : List Nat :=
  (days p).filter (fun d => pyWeekday p.year p.month d == 5)

def specialSaturdays (p : Params) : List Nat :=
  if p.is_saturday_special then saturdays p else []

def weekdaysL (p : Params) : List Nat :=
  (days p).filter (fun d =>
    !((sundays p).contains d) && !((specialSaturdays p).contains d))

def partTimeIds (p : Params) : List String :=
  ((p.staffList.filter (fun s => s.employment == "パート")).map (fun s => s.id))

def regularStaff (p : Params) : List StaffRec :=
  p.staffList.filter (fun s => !((partTimeIds p).contains s.id))

def managers (p : Params) : List StaffRec := p.staffList.filter (fun s => s.hasTitle)

def ptStaff (p : Params) : List StaffRec :=
  p.staffList.filter (fun s => s.job == "理学療法士")

def otStaff (p : Params) : List StaffRec :=
  p.staffList.filter (fun s => s.job == "作業療法士")

def stStaffL (p : Params) : List StaffRec :=
  p.staffList.filter (fun s => s.job == "言語聴覚士")

def kaifukukiStaff (p : Params) : List StaffRec :=
  p.staffList.filter (fun s => s.role1 == some "回復期専従")

def kaifukukiPT (p : Params) : List StaffRec :=
  (kaifukukiStaff p).filter (fun s => s.job == "理学療法士")

def kaifukukiOT (p : Params) : List StaffRec :=
  (kaifukukiStaff p).filter (fun s => s.job == "作業療法士")

def gairaiStaff (p : Params) : List StaffRec :=
  p.staffList.filter (fun s => s.role1 == some "外来PT")

def jobTypes (p : Params) : List (String × List StaffRec) :=
  [("PT", ptStaff p), ("OT", otStaff p), ("ST", stStaffL p)]

/-- Behavior of a role from the 記号設定 sheet. The default is never hit for
roles stored in `requests_map`, which only holds configured roles. -/
def behaviorOf (p : Params) (r : String) : Behavior :=
  (((p.symbolSettings.find? (fun q => q.1 == r)).map Prod.snd)).getD ⟨false, false, 1, ""⟩

def roleIsHoliday (p : Params) (r : String) : Bool := (behaviorOf p r).is_holiday

def roleIsStrict (p : Params) (r : String) : Bool := (behaviorOf p r).strict

def roleCoef (p : Params) (r : String) : ℚ := (behaviorOf p r).coef

/-- `unit_multiplier_map` with its `.get(d, 1.0)` default: the work
coefficient of the requested role, or 1 when no request is present. -/
def mult (p : Params) (sid : String) (d : Nat) : ℚ :=
  match p.requests sid d with
  | some r => roleCoef p r
  | none => 1

/-- The requested (day, role) pairs of one staff, in day order
(`requests_map[s].items()`). -/
def requestedDays (p : Params) (sid : String) : List (Nat × String) :=
  (days p).filterMap (fun d => (p.requests sid d).map (fun r => (d, r)))

/-- Number of days the given staff works among `ds`, as an integer. -/
def workedZ (x : Assignment) (sid : String) (ds : List Nat) : ℤ :=
  (ds.map (fun d => ind (x sid d))).sum

/-! ## Objective blocks (solution semantics of the penalty terms)

Each block mirrors one `penalties.append`-region of `solve_shift_model`.
Auxiliary `NewIntVar`/`NewBoolVar` chains are resolved to the values a
minimizing solution forces: `AddAbsEquality` becomes `|_|`, one-sided
`over ≥ diff, over ≥ 0` chains become `max 0 diff`, and reified violation
booleans become indicators. -/

def nonCountableHolidayRoles : List String :=
  ["HOLIDAY_PAID", "HOLIDAY_SPECIAL", "HOLIDAY_SUMMER"]

def roleIsHalfHoliday (p : Params) (r : String) : Bool :=
  roleIsHoliday p r && decide (0 < roleCoef p r) && decide (roleCoef p r < 1)

/-- H1 term of a single (non-part-time) staff: the
`countable_full_holidays` / `total_holiday_value` / `deviation` chain of
lines 320-350. -/
def h1TermOfStaff (p : Params) (x : Assignment) (s : StaffRec) : ℤ :=
  let num_non_countable : ℤ :=
    ((requestedDays p s.id).filter (fun t => nonCountableHolidayRoles.contains t.2)).length
  let num_half_holidays : ℤ :=
    ((requestedDays p s.id).filter (fun t => roleIsHalfHoliday p t.2)).length
  let total_full_holidays : ℤ := ((days p).map (fun d => 1 - ind (x s.id d))).sum
  let countable_full_holidays := total_full_holidays - num_non_countable
  let total_holiday_value := 2 * countable_full_holidays + num_half_holidays
  let deviation := total_holiday_value - 18
  p.w.h1 * |deviation|

def h1Terms (p : Params) (x : Assignment) : List (String × ℤ) :=
  if p.sw.h1_on then (regularStaff p).map (fun s => (s.id, h1TermOfStaff p x s)) else []

/-- H2 soft part (lines 363-373): strict-request penalties for full-time
staff. -/
def h2Terms (p : Params) (x : Assignment) : List ℤ :=
  if p.sw.h2_on then
    (regularStaff p).flatMap (fun s =>
      (requestedDays p s.id).filterMap (fun t =>
        if roleIsStrict p t.2 then
          some (if roleIsHoliday p t.2 then p.w.h2 * ind (x s.id t.1)
                else p.w.h2 * (1 - ind (x s.id t.1)))
        else none))
  else []

def h3Terms (p : Params) (x : Assignment) : List ℤ :=
  if p.sw.h3_on then
    (days p).map (fun d =>
      p.w.h3 * indP (((managers p).map (fun s => ind (x s.id d))).sum = 0))
  else []

def h5Terms (p : Params) (x : Assignment) : List (String × ℤ) :=
  if p.sw.h5_on then
    (regularStaff p).filterMap (fun s =>
      match s.sundayCap with
      | some cap => some (s.id, p.w.h5 * max 0 (workedZ x s.id (sundays p) - cap))
      | none => none)
  else []

/-- One staff's contribution of the always-active weekend-cap block
(lines 393-416): 土日上限 if present, else 日曜上限 and (on special
Saturdays) 土曜上限. -/
def weekendLimitTermsOfStaff (p : Params) (x : Assignment) (s : StaffRec) :
    List (String × ℤ) :=
  match s.weekendCap with
  | some cap =>
      [(s.id, p.w.hWeekend * max 0 (workedZ x s.id (sundays p ++ specialSaturdays p) - cap))]
  | none =>
      (match s.sundayCap with
       | some cap => [(s.id, p.w.hWeekend * max 0 (workedZ x s.id (sundays p) - cap))]
       | none => []) ++
      (match s.saturdayCap with
       | some cap =>
           if specialSaturdays p ≠ [] then
             [(s.id, p.w.hWeekend * max 0 (workedZ x s.id (specialSaturdays p) - cap))]
           else []
       | none => [])

def weekendLimitTerms (p : Params) (x : Assignment) : List (String × ℤ) :=
  (regularStaff p).flatMap (weekendLimitTermsOfStaff p x)

/-- Always-active block of lines 418-426 (`sunday_overwork_penalty = 50`). -/
def sundayOverworkTerms (p : Params) (x : Assignment) : List ℤ :=
  (regularStaff p).filterMap (fun s =>
    match s.sundayCap with
    | some cap =>
        if 3 ≤ cap then some (50 * max 0 (workedZ x s.id (sundays p) - 2)) else none
    | none => none)

def s4Terms (p : Params) (x : Assignment) : List ℤ :=
  if p.sw.s4_on then
    p.staffList.flatMap (fun s =>
      (requestedDays p s.id).filterMap (fun t =>
        if roleIsHoliday p t.2 && !(roleIsStrict p t.2) then
          some (p.w.s4 * ind (x s.id t.1))
        else none))
  else []

/-- `weeks_in_month`: maximal runs of days ending at each Saturday or at the
last day of the month (lines 436-443). -/
def weeksInMonth (p : Params) : List (List Nat) :=
  ((days p).foldl (fun (acc : List (List Nat) × List Nat) d =>
    let cur := acc.2 ++ [d]
    if pyWeekday p.year p.month d == 5 || d == numDays p then (acc.1 ++ [cur], [])
    else (acc.1, cur)) ([], [])).1

def roleIsFullHoliday (p : Params) (r : String) : Bool :=
  roleIsHoliday p r && decide (roleCoef p r = 0)

/-- Weekly-rest block word for roles counted as half holidays there
(line 446: holiday with coefficient strictly above 0). -/
def roleIsPosCoefHoliday (p : Params) (r : String) : Bool :=
  roleIsHoliday p r && decide (0 < roleCoef p r)

def s0s2TermsOfStaffWeek (p : Params) (x : Assignment) (s : StaffRec)
    (widx : Nat) (week : List Nat) : List ℤ :=
  let full_req_in_week :=
    (week.filter (fun d =>
      match p.requests s.id d with
      | some r => roleIsFullHoliday p r
      | none => false)).length
  if 3 ≤ full_req_in_week then []
  else
    let num_full : ℤ := (week.map (fun d => 1 - ind (x s.id d))).sum
    let num_half : ℤ :=
      ((week.filter (fun d =>
        (match p.requests s.id d with
         | some r => roleIsPosCoefHoliday p r
         | none => false) && x s.id d)).length : ℤ)
    let total_holiday_value := 2 * num_full + num_half
    if is_cross_month_week p.year p.month ∧ widx = 0 then
      [p.w.s0 * indP (total_holiday_value + pyInt (s.prevWeekHolidays * 2) < 3)]
    else if week.length = 7 ∧ p.sw.s0_on then
      [p.w.s0 * indP (total_holiday_value < 3)]
    else if week.length < 7 ∧ p.sw.s2_on then
      [p.w.s2 * indP (total_holiday_value < 1)]
    else []

def s0s2Terms (p : Params) (x : Assignment) : List ℤ :=
  if p.sw.s0_on || p.sw.s2_on then
    (regularStaff p).flatMap (fun s =>
      (weeksInMonth p).enum.flatMap (fun t => s0s2TermsOfStaffWeek p x s t.1 t.2))
  else []

def countOn (x : Assignment) (l : List StaffRec) (d : Nat) : ℤ :=
  (l.map (fun s => ind (x s.id d))).sum

def s1DayTerms (p : Params) (x : Assignment) (tpt tot tst : ℤ) (d : Nat) : List ℤ :=
  let pt_on_day := countOn x (ptStaff p) d
  let ot_on_day := countOn x (otStaff p) d
  let st_on_day := countOn x (stStaffL p) d
  (if p.sw.s1a_on then [p.w.s1a * |pt_on_day + ot_on_day - (tpt + tot)|] else []) ++
  (if p.sw.s1b_on then
      [p.w.s1b * max 0 (|pt_on_day - tpt| - p.w.tolerance),
       p.w.s1b * max 0 (|ot_on_day - tot| - p.w.tolerance)]
    else []) ++
  (if p.sw.s1c_on then [p.w.s1c * |st_on_day - tst|] else [])

def s1Terms (p : Params) (x : Assignment) : List ℤ :=
  if p.sw.s1a_on || p.sw.s1b_on || p.sw.s1c_on then
    ((sundays p).flatMap (s1DayTerms p x p.targets.sunPT p.targets.sunOT p.targets.sunST)) ++
    (if specialSaturdays p ≠ [] then
        (specialSaturdays p).flatMap (s1DayTerms p x p.targets.satPT p.targets.satOT p.targets.satST)
      else [])
  else []

def s3Terms (p : Params) (x : Assignment) : List ℤ :=
  if p.sw.s3_on then
    (days p).map (fun d =>
      p.w.s3 * max 0 (((gairaiStaff p).map (fun s => 1 - ind (x s.id d))).sum - 1))
  else []

def s5Terms (p : Params) (x : Assignment) : List ℤ :=
  if p.sw.s5_on then
    (days p).flatMap (fun d =>
      [p.w.s5 * indP (countOn x (kaifukukiPT p) d = 0),
       p.w.s5 * indP (countOn x (kaifukukiOT p) d = 0)])
  else []

/-! ### S6 workload-leveling block (lines 535-584) -/

def s6Weight (p : Params) : ℤ := if p.sw.high_flat then p.w.s6heavy else p.w.s6

/-- `constant_unit = int(unit * multiplier)` of line 572. -/
def constantUnit (p : Params) (s : StaffRec) (d : Nat) : ℤ :=
  pyInt ((s.units : ℚ) * mult p s.id d)

def eventOf (p : Params) (job : String) : Nat → Int :=
  if job == "PT" then p.eventPT
  else if job == "OT" then p.eventOT
  else if job == "ST" then p.eventST
  else fun _ => 0

def holidayReqWeekdayCount (p : Params) (sid : String) : Nat :=
  ((weekdaysL p).filter (fun d =>
    match p.requests sid d with
    | some r => roleIsHoliday p r
    | none => false)).length

def totalWeekdayUnits (p : Params) (members : List StaffRec) : ℚ :=
  if members = [] then 0
  else
    (members.map (fun s =>
      (s.units : ℚ) *
        (1 - (holidayReqWeekdayCount p s.id : ℚ) / ((weekdaysL p).length : ℚ)))).sum

def totalAllJobsUnits (p : Params) : ℚ :=
  ((jobTypes p).map (fun jm => totalWeekdayUnits p jm.2)).sum

def ratioOf (p : Params) (members : List StaffRec) : ℚ :=
  if 0 < totalAllJobsUnits p then totalWeekdayUnits p members / totalAllJobsUnits p else 0

def totalEventUnitsAll (p : Params) : ℤ := ((days p).map p.eventAll).sum

def avgResidualUnits (p : Params) (job : String) (members : List StaffRec) : ℚ :=
  if weekdaysL p = [] ∨ members = [] then 0
  else
    let total_event_units_job : ℚ := (((days p).map (eventOf p job)).sum : ℤ)
    let total_event_units_for_job :=
      total_event_units_job + (totalEventUnitsAll p : ℚ) * ratioOf p members
    (totalWeekdayUnits p members - total_event_units_for_job) / ((weekdaysL p).length : ℚ)

/-- Units delivered by the members of one profession on one day:
`sum(shifts[(s,d)] * int(unit * multiplier))`. -/
def providedUnitsDay (p : Params) (x : Assignment) (members : List StaffRec)
    (d : Nat) : ℤ :=
  (members.map (fun s => ind (x s.id d) * constantUnit p s d)).sum

/-- Modelled from the spec's words for claim C7 only: delivered units with
nearest-integer rounding, `Σ x[s,d] · round(u_s · coef_of(s,d))`. -/
def providedUnitsDay_spec (p : Params) (x : Assignment) (members : List StaffRec)
    (d : Nat) : ℤ :=
  (members.map (fun s => ind (x s.id d) * round ((s.units : ℚ) * mult p s.id d))).sum

def s6Terms (p : Params) (x : Assignment) : List ℤ :=
  if p.sw.s6_on then
    (jobTypes p).flatMap (fun jm =>
      if jm.2 = [] then []
      else
        (weekdaysL p).map (fun d =>
          let provided := providedUnitsDay p x jm.2 d
          let event_unit_for_day : ℚ :=
            ((eventOf p jm.1 d : ℤ) : ℚ) + (p.eventAll d : ℚ) * ratioOf p jm.2
          let residual := provided - pyRound event_unit_for_day
          let diff := residual - pyRound (avgResidualUnits p jm.1 jm.2)
          s6Weight p * |diff|))
  else []

def s7Terms (p : Params) (x : Assignment) : List ℤ :=
  if p.sw.s7_on then
    (regularStaff p).flatMap (fun s =>
      (List.range' 1 (numDays p - 5)).map (fun dstart =>
        p.w.s7 * indP (((List.range' dstart 6).map (fun d => ind (x s.id d))).sum = 6)))
  else []

/-- The full objective, block by block in source order. -/
def objectiveTerms (p : Params) (x : Assignment) : List ℤ :=
  (h1Terms p x).map Prod.snd ++ h2Terms p x ++ h3Terms p x ++
  (h5Terms p x).map Prod.snd ++ (weekendLimitTerms p x).map Prod.snd ++
  sundayOverworkTerms p x ++ s4Terms p x ++ s0s2Terms p x ++ s1Terms p x ++
  s3Terms p x ++ s5Terms p x ++ s6Terms p x ++ s7Terms p x

def objective (p : Params) (x : Assignment) : ℤ := (objectiveTerms p x).sum

/-! ## Hard constraints on the shift variables -/

/-- Part-time fixes of lines 352-361: under rule H2, every requested role of
a part-time staff pins the shift variable — to 0 for any 休日扱い (holiday)
role and to 1 for any other role. -/
def partTimeFixList (p : Params) : List (String × Nat × Bool) :=
  if p.sw.h2_on then
    (p.staffList.filter (fun s => s.employment == "パート")).flatMap (fun s =>
      (requestedDays p s.id).map (fun t => (s.id, t.1, !(roleIsHoliday p t.2))))
  else []

/-- Modelled from the spec's words for claim C1 only: fixes as rule E1
states them — strict holidays pin to 0, strict work requests pin to 1, and
all other requests (for instance weak holidays) impose nothing. -/
def partTimeFixList_spec (p : Params) : List (String × Nat × Bool) :=
  if p.sw.h2_on then
    (p.staffList.filter (fun s => s.employment == "パート")).flatMap (fun s =>
      (requestedDays p s.id).filterMap (fun t =>
        if roleIsHoliday p t.2 && roleIsStrict p t.2 then some (s.id, t.1, false)
        else if !(roleIsHoliday p t.2) && roleIsStrict p t.2 then some (s.id, t.1, true)
        else none))
  else []

def satisfiesFixes (p : Params) (x : Assignment) : Prop :=
  ∀ t ∈ partTimeFixList p, x t.1 t.2.1 = t.2.2

instance (p : Params) (x : Assignment) : Decidable (satisfiesFixes p x) := by
  unfold satisfiesFixes; infer_instance

/-- Hard S5 coverage of line 525: on every day at least one recovery-ward
PT or OT works. -/
def kaifukukiCoverage (p : Params) (x : Assignment) : Prop :=
  ∀ d ∈ days p,
    1 ≤ countOn x (kaifukukiPT p) d + countOn x (kaifukukiOT p) d

instance (p : Params) (x : Assignment) : Decidable (kaifukukiCoverage p x) := by
  unfold kaifukukiCoverage; infer_instance

/-- All hard constraints `model.Add` places directly on the shift
variables. -/
def hardConstraints (p : Params) (x : Assignment) : Prop :=
  satisfiesFixes p x ∧ (p.sw.s5_on = true → kaifukukiCoverage p x)

instance (p : Params) (x : Assignment) : Decidable (hardConstraints p x) := by
  unfold hardConstraints; infer_instance

/-! ## Output assembly (`_create_schedule_df`, `_create_summary`) -/

/-- `symbol_settings.get(name, {}).get('出力される記号', default)`. -/
def findOutput (settings : List (String × Behavior)) (name default : String) : String :=
  (((settings.find? (fun q => q.1 == name)).map (fun q => q.2.output))).getD default

/-- Per-cell output symbol of `_create_schedule_df` (lines 184-202). -/
def cellSymbol (settings : List (String × Behavior)) (role? : Option String)
    (working : Bool) : String :=
  let sym_work_def := findOutput settings "WORK_DEFAULT" ""
  let sym_holi_def := findOutput settings "HOLIDAY_DEFAULT" "-"
  let sym_work_from_weak := findOutput settings "WORK_FROM_WEAK" "出"
  if working then
    match role? with
    | some r =>
        if r == "HOLIDAY_WEAK" then sym_work_from_weak
        else findOutput settings r sym_work_def
    | none => sym_work_def
  else
    match role? with
    | some r => findOutput settings r sym_holi_def
    | none => sym_holi_def

def scheduleTable (p : Params) (x : Assignment) : List (String × List String) :=
  p.staffList.map (fun s =>
    (s.id, (days p).map (fun d => cellSymbol p.symbolSettings (p.requests s.id d) (x s.id d))))

/-- One row of the daily summary (`_create_summary`), numeric fields only
(the final string formatting of lines 163-176 is presentation). Unit fields
are `none` on Sundays. -/
structure DaySummary where
  day : Nat
  total : ℚ
  ptCnt : ℚ
  otCnt : ℚ
  stCnt : ℚ
  managerCnt : ℚ
  kaifukukiCnt : ℚ
  chiikiCnt : ℚ
  gairaiCnt : ℚ
  ptUnits : Option ℚ
  otUnits : Option ℚ
  stUnits : Option ℚ
  eventUnits : Option ℚ
deriving DecidableEq, Repr

def workSymbols (p : Params) : List String :=
  ((p.symbolSettings.filter (fun q => decide (0 < q.2.coef))).map (fun q => q.2.output))

def summaryRow (p : Params) (x : Assignment) (d : Nat) : DaySummary :=
  let workStaff := p.staffList.filter (fun s =>
    (workSymbols p).contains (cellSymbol p.symbolSettings (p.requests s.id d) (x s.id d)))
  let isHalf := fun (s : StaffRec) =>
    decide (0 < mult p s.id d) && decide (mult p s.id d < 1)
  let cnt := fun (l : List StaffRec) =>
    ((l.map (fun s => if isHalf s then (1 / 2 : ℚ) else 1)).sum)
  let unitsOf := fun (job : String) =>
    ((workStaff.filter (fun s => s.job == job)).map
      (fun s => (s.units : ℚ) * mult p s.id d)).sum
  { day := d
    total := (workStaff.map (fun s => mult p s.id d)).sum
    ptCnt := cnt (workStaff.filter (fun s => s.job == "理学療法士"))
    otCnt := cnt (workStaff.filter (fun s => s.job == "作業療法士"))
    stCnt := cnt (workStaff.filter (fun s => s.job == "言語聴覚士"))
    managerCnt := cnt (workStaff.filter (fun s => s.hasTitle))
    kaifukukiCnt := cnt (workStaff.filter (fun s => s.role1 == some "回復期専従"))
    chiikiCnt := cnt (workStaff.filter (fun s => s.role1 == some "地域包括専従"))
    gairaiCnt := cnt (workStaff.filter (fun s => s.role1 == some "外来PT"))
    ptUnits := if pyWeekday p.year p.month d == 6 then none else some (unitsOf "理学療法士")
    otUnits := if pyWeekday p.year p.month d == 6 then none else some (unitsOf "作業療法士")
    stUnits := if pyWeekday p.year p.month d == 6 then none else some (unitsOf "言語聴覚士")
    eventUnits :=
      if pyWeekday p.year p.month d == 6 then none
      else some ((p.eventAll d + p.eventPT d + p.eventOT d + p.eventST d : ℤ) : ℚ) }

def summaryTable (p : Params) (x : Assignment) : List DaySummary :=
  (days p).map (summaryRow p x)

structure SolveResult where
  ok : Bool
  schedule : List (String × List String)
  summary : List DaySummary

/-- The solver driver: if the hard constraints are satisfiable the CP solver
returns some satisfying assignment and the output tables are built from it;
otherwise lines 698-700 return failure together with two empty tables. -/
noncomputable def solve_shift_model (p : Params) : SolveResult :=
  letI := Classical.propDecidable (∃ x, hardConstraints p x)
  if h : ∃ x, hardConstraints p x then
    ⟨true, scheduleTable p h.choose, summaryTable p h.choose⟩
  else ⟨false, [], []⟩

/-! ## Spec-side formulas (written from the spec's words, for comparison) -/

/-- `FH` of rule P1: number of days the staff is off. -/
def specFH (p : Params) (x : Assignment) (sid : String) : ℤ :=
  ((days p).map (fun d => 1 - ind (x sid d))).sum

/-- `NC` of rule P1: requested roles among paid, special and summer leave. -/
def specNC (p : Params) (sid : String) : ℕ :=
  ((days p).filter (fun d =>
    match p.requests sid d with
    | some r => nonCountableHolidayRoles.contains r
    | none => false)).length

/-- `HH` of rule P1: requested half-holiday roles (holiday, coefficient
strictly between 0 and 1). -/
def specHH (p : Params) (sid : String) : ℕ :=
  ((days p).filter (fun d =>
    match p.requests sid d with
    | some r => roleIsHalfHoliday p r
    | none => false)).length

/-- The monthly-holiday penalty exactly as claim C2 words it:
`w_H1 · |2·(FH − NC) + HH − 18|`. -/
def specH1Term (p : Params) (x : Assignment) (s : StaffRec) : ℤ :=
  p.w.h1 * |2 * (specFH p x s.id - (specNC p s.id : ℤ)) + (specHH p s.id : ℤ) - 18|

/-! ## Concrete instances used by counterexamples and witnesses -/

def demoSettings : List (String × Behavior) :=
  [("HOLIDAY_STRICT", ⟨true, true, 0, "×"⟩),
   ("HOLIDAY_WEAK", ⟨true, false, 0, "△"⟩),
   ("HOLIDAY_PAID", ⟨true, true, 0, "有"⟩),
   ("HOLIDAY_HALF", ⟨true, true, mkRat 1 2, "AM休"⟩),
   ("HOLIDAY_HOME", ⟨true, false, 0, "家"⟩),
   ("WORK_STRICT", ⟨false, true, 1, "○"⟩),
   ("WORK_TRIP", ⟨false, true, mkRat 7 10, "出張"⟩),
   ("WORK_DEFAULT", ⟨false, false, 1, ""⟩),
   ("HOLIDAY_DEFAULT", ⟨true, false, 0, "-"⟩),
   ("WORK_FROM_WEAK", ⟨false, false, 1, "出"⟩)]

def staffR1 : StaffRec :=
  ⟨"R1", "理学療法士", 18, "常勤", true, some "回復期専従", some 2, none, none, 0⟩

def staffR2 : StaffRec :=
  ⟨"R2", "作業療法士", 18, "常勤", false, some "回復期専従", none, none, none, 0⟩

def staffP1 : StaffRec :=
  ⟨"P1", "理学療法士", 16, "パート", false, none, none, none, none, 0⟩

def demoRequests (sid : String) (d : Nat) : Option String :=
  if sid == "P1" && d == 5 then some "HOLIDAY_WEAK"
  else if sid == "P1" && d == 6 then some "WORK_STRICT"
  else if sid == "R1" && d == 10 then some "HOLIDAY_PAID"
  else if sid == "R1" && d == 12 then some "HOLIDAY_HALF"
  else if sid == "R2" && d == 3 then some "WORK_TRIP"
  else none

def allOn : Switches :=
  ⟨true, true, true, true, true, true, true, true, true, true, true, true, true, true, false⟩

def defaultWeights : Weights :=
  ⟨1000, 1000, 1000, 1000, 1000, 200, 50, 40, 60, 25, 10, 8, 5, 2, 4, 50, 1⟩

def demoTargets : Targets := ⟨10, 5, 3, 4, 2, 1⟩

/-- March 2026 (31 days; day 0 is Saturday 2026-02-28), three staff. -/
def demoParams : Params :=
  { year := 2026
    month := 3
    staffList := [staffR1, staffR2, staffP1]
    symbolSettings := demoSettings
    requests := demoRequests
    sw := allOn
    w := defaultWeights
    targets := demoTargets
    eventAll := fun _ => 0
    eventPT := fun _ => 0
    eventOT := fun _ => 0
    eventST := fun _ => 0
    is_saturday_special := false }

/-- Same month and rules but no recovery-ward staff at all (for C10). -/
def demoParamsNoKaifukuki : Params :=
  { demoParams with
    staffList :=
      [{ staffR1 with role1 := none }, { staffR2 with role1 := none }, staffP1] }

/-- Everyone works except part-timer P1 on the weak-holiday day 5. -/
def demoX : Assignment := fun sid d => !(sid == "P1" && d == 5)

/-- Everyone works every day. -/
def demoXAll : Assignment := fun _ _ => true

end Proto3

namespace Ono

/-! ## Local-search improver of `reha-shift-proto3-ono.py` (lines 272-331)

The schedule DataFrame becomes a function `String → Nat → Nat` holding the
0/1 work markers; `staffIndex` is the DataFrame row order. `random.shuffle`
of the candidate list is modelled by an explicit reordering function passed
to the improver: each run of the Python code corresponds to some choice of
that function. The pandas `Series.std()` (sample standard deviation,
`ddof=1`) becomes the real square root of an exact rational variance; every
month has at least two weekdays, so the NaN cases of `std()` do not arise. -/

structure OnoParams where
  staffIndex : List String
  job_types : List (String × List String)
  weekdays : List Nat
  managers : List String
  kaifukuki_pt : List String
  kaifukuki_ot : List String
  part_time_staff_ids : List String
  requests : String → Nat → Option String
  num_days : Nat
  delta_penalty_weight : ℚ

abbrev Schedule := String → Nat → Nat

/-- The per-weekday headcount series of one profession, with its day labels
(`daily_counts`). -/
def dailyCounts (p : OnoParams) (sched : Schedule) (members : List String) :
    List (Nat × Nat) :=
  p.weekdays.map (fun d => (d, (members.map (fun s => sched s d)).sum))

/-- `Series.idxmin()`: the label of the first minimal entry. -/
def idxminD : List (Nat × Nat) → Option (Nat × Nat)
  | [] => none
  | t :: rest => some (rest.foldl (fun best u => if u.2 < best.2 then u else best) t)

/-- `Series.idxmax()`: the label of the first maximal entry. -/
def idxmaxD : List (Nat × Nat) → Option (Nat × Nat)
  | [] => none
  | t :: rest => some (rest.foldl (fun best u => if best.2 < u.2 then u else best) t)

/-- Unbiased sample variance (`ddof=1`), exactly. -/
def sampleVar (l : List Nat) : ℚ :=
  ((l.map (fun c => ((c : ℚ) - (l.map (fun c2 => (c2 : ℚ))).sum / (l.length : ℚ)) ^ 2)).sum) /
    ((l.length : ℚ) - 1)

/-- `calculate_total_penalty`: the sum over professions of the sample
standard deviation of the weekday headcounts. -/
noncomputable def calculate_total_penalty (p : OnoParams) (sched : Schedule) : ℝ :=
  (p.job_types.map (fun jm =>
    if jm.2 = [] then (0 : ℝ)
    else Real.sqrt (sampleVar ((dailyCounts p sched jm.2).map Prod.snd)))).sum

/-- The two `.loc` assignments of a move: day1 becomes 0, day2 becomes 1. -/
def updSched (sched : Schedule) (s : String) (day1 day2 : Nat) : Schedule :=
  fun t d =>
    if t == s && d == day1 then 0
    else if t == s && d == day2 then 1
    else sched t d

/-- `check_weekly_holidays` inside `is_move_valid`: seven-day chunks from
day 1, at least 2 off days in a full chunk and 1 in a short one. -/
def checkWeeklyHolidays (p : OnoParams) (sched : Schedule) (s : String)
    (day : Nat) : Bool :=
  (if (List.range' ((day - 1) / 7 * 7 + 1)
        (min ((day - 1) / 7 * 7 + 7) p.num_days + 1 - ((day - 1) / 7 * 7 + 1))).length = 7
    then 2 else 1) ≤
  ((List.range' ((day - 1) / 7 * 7 + 1)
      (min ((day - 1) / 7 * 7 + 7) p.num_days + 1 - ((day - 1) / 7 * 7 + 1))).filter
    (fun d => sched s d == 0)).length

/-- Longest run of consecutive 1 entries (`itertools.groupby`). -/
def maxRunOfOnes (l : List Nat) : Nat :=
  (l.foldl (fun (acc : Nat × Nat) v =>
    if v == 1 then (max acc.1 (acc.2 + 1), acc.2 + 1) else (acc.1, 0)) (0, 0)).1

/-- `is_move_valid(schedule_df, staff_index, day1, day2, params)`. -/
def is_move_valid (p : OnoParams) (sched : Schedule) (s : String)
    (day1 day2 : Nat) : Bool :=
  if !(checkWeeklyHolidays p (updSched sched s day1 day2) s day1) then false
  else if ((day1 - 1) / 7 != (day2 - 1) / 7) &&
      !(checkWeeklyHolidays p (updSched sched s day1 day2) s day2) then false
  else if 5 < maxRunOfOnes ((List.range' 1 p.num_days).map
      (fun d => updSched sched s day1 day2 s d)) then false
  else if p.managers.contains s && (p.managers.map (fun t => sched t day1)).sum ≤ 1 then
    false
  else if p.kaifukuki_pt.contains s && (p.kaifukuki_pt.map (fun t => sched t day1)).sum ≤ 1 then
    false
  else if p.kaifukuki_ot.contains s && (p.kaifukuki_ot.map (fun t => sched t day1)).sum ≤ 1 then
    false
  else true

open Classical in
/-- The inner candidate loop: try the (shuffled) candidates in order and
return the first committed move. -/
noncomputable def tryCandidates (p : OnoParams) (sched : Schedule) (best : ℝ)
    (maxD minD : Nat) : List String → Option Schedule
  | [] => none
  | s :: rest =>
    if p.requests s minD = some "△" ∨ p.requests s minD = none ∨
        p.requests s minD = some "" then
      if is_move_valid p sched s maxD minD then
        if calculate_total_penalty p (updSched sched s maxD minD) +
            (if p.requests s minD = some "△" then (p.delta_penalty_weight : ℝ) else 0) <
            best then
          some (updSched sched s maxD minD)
        else tryCandidates p sched best maxD minD rest
      else tryCandidates p sched best maxD minD rest
    else tryCandidates p sched best maxD minD rest

/-- The job loop of one outer iteration: the first committed move, if any.
`shuffle` stands for the `random.shuffle` of the candidate list. -/
noncomputable def scanJobs (p : OnoParams) (shuffle : List String → List String)
    (sched : Schedule) (best : ℝ) : List (String × List String) → Option Schedule
  | [] => none
  | jm :: rest =>
    if jm.2 = [] then scanJobs p shuffle sched best rest
    else
      match idxminD (dailyCounts p sched jm.2), idxmaxD (dailyCounts p sched jm.2) with
      | some mn, some mx =>
        if mx.2 ≤ mn.2 then scanJobs p shuffle sched best rest
        else
          match tryCandidates p sched best mx.1 mn.1
              (shuffle (p.staffIndex.filter (fun s =>
                sched s mx.1 == 1 && sched s mn.1 == 0 && jm.2.contains s))) with
          | some out => some out
          | none => scanJobs p shuffle sched best rest
      | _, _ => scanJobs p shuffle sched best rest

/-- The outer `for _ in range(100)` loop: stop at the first iteration with
no committed move, else continue from the committed schedule. -/
noncomputable def improveLoop (p : OnoParams) (shuffle : List String → List String) :
    Nat → Schedule → Schedule
  | 0, sched => sched
  | Nat.succ k, sched =>
    match scanJobs p shuffle sched (calculate_total_penalty p sched) p.job_types with
    | some sched2 => improveLoop p shuffle k sched2
    | none => sched

/-- `improve_schedule_with_local_search(base_schedule_df, params, w)`. -/
noncomputable def improve_schedule_with_local_search (p : OnoParams)
    (shuffle : List String → List String) (base : Schedule) : Schedule :=
  improveLoop p shuffle 100 base

/-! ### Concrete instance: February 2027, one profession, two staff -/

/-- Weekdays of February 2027 (no special Saturdays): all days except the
Sundays 7, 14, 21, 28. -/
def onoWeekdays : List Nat :=
  (List.range' 1 28).filter (fun d => pyWeekday 2027 2 d != 6)

/-- Staff A is part-time, staff B regular; both are PTs. -/
def onoDemo : OnoParams :=
  { staffIndex := ["A", "B"]
    job_types := [("PT", ["A", "B"]), ("OT", []), ("ST", [])]
    weekdays := onoWeekdays
    managers := []
    kaifukuki_pt := []
    kaifukuki_ot := []
    part_time_staff_ids := ["A"]
    requests := fun _ _ => none
    num_days := 28
    delta_penalty_weight := mkRat 1 2 }

/-- Base schedule: both staff work only day 1. -/
def onoBase : Schedule := fun _ d => if d == 1 then 1 else 0

/-- The schedule after moving staff A from day 1 to day 2. -/
def onoSchedA : Schedule := updSched onoBase "A" 1 2

/-- The schedule after moving staff B from day 1 to day 2. -/
def onoSchedB : Schedule := updSched onoBase "B" 1 2

/-- Frame relation used to state what the improver preserves: cells outside
the weekday columns are untouched, and each staff's total number of working
weekdays is unchanged. -/
def FrameRel (p : OnoParams) (a b : Schedule) : Prop :=
  (∀ t d, d ∉ p.weekdays → b t d = a t d) ∧
  (∀ t, (p.weekdays.map (fun d => b t d)).sum = (p.weekdays.map (fun d => a t d)).sum)

end Ono

/-! # Theorems -/

/-! ## Calendar lemmas -/

lemma leapDaysBefore_succ (z : Nat) (hz : 1 ≤ z) :
    leapDaysBefore (z + 1) = leapDaysBefore z + (if isLeapYear z then 1 else 0) := by
  unfold leapDaysBefore isLeapYear
  simp only [Nat.add_sub_cancel, Bool.or_eq_true, Bool.and_eq_true, beq_iff_eq, bne_iff_ne,
    ne_eq, decide_eq_true_eq]
  split <;> omega

lemma daysBeforeMonth_succ (y m : Nat) (hm : 1 ≤ m) :
    daysBeforeMonth y (m + 1) = daysBeforeMonth y m + daysInMonth y m := by
  unfold daysBeforeMonth
  obtain ⟨w, rfl⟩ : ∃ w, m = w + 1 := ⟨m - 1, by omega⟩
  simp [Finset.sum_range_succ]

lemma serial_prevMonthLastDay (y m : Nat) (hy : 2 ≤ y) (hm1 : 1 ≤ m) (hm : m ≤ 12) :
    serialOfDate (prevMonthLastDay y m).year (prevMonthLastDay y m).month
      (prevMonthLastDay y m).day + 1 = serialOfDate y m 1 := by
  by_cases h1 : m = 1
  · subst h1
    obtain ⟨w, rfl⟩ : ∃ w, y = w + 2 := ⟨y - 2, by omega⟩
    have hp : prevMonthLastDay (w + 2) 1 = ⟨w + 1, 12, 31⟩ := rfl
    rw [hp]
    unfold serialOfDate
    have hL := leapDaysBefore_succ (w + 1) (by omega)
    have hdb : daysBeforeMonth (w + 1) 12 = 334 + (if isLeapYear (w + 1) then 1 else 0) := by
      unfold daysBeforeMonth daysInMonth monthLengths
      simp [Finset.sum_range_succ]
      split <;> norm_num
    have hdb1 : daysBeforeMonth (w + 2) 1 = 0 := by
      unfold daysBeforeMonth; simp
    simp only [show w + 2 = (w + 1) + 1 from rfl] at *
    rw [hdb1, hdb, hL]
    split <;> omega
  · have hm2 : 2 ≤ m := by omega
    obtain ⟨w, rfl⟩ : ∃ w, m = w + 2 := ⟨m - 2, by omega⟩
    have hp : prevMonthLastDay y (w + 2) = ⟨y, w + 1, daysInMonth y (w + 1)⟩ := rfl
    rw [hp]
    unfold serialOfDate
    dsimp only
    have hsum := daysBeforeMonth_succ y (w + 1) (by omega)
    rw [show w + 1 + 1 = w + 2 from rfl] at hsum
    omega

/-! ## Claim C5 -/

/-- Claim C5, counterexample: for December 2025, day 0 of the month
(2025-11-30) is a Sunday (Python weekday 6), yet `is_cross_month_week` is
`true`. The claim "the flag is true iff day 0 is not a Sunday" is therefore
false on the code, which tests "not a Saturday". -/
theorem c5_cross_month_flag_counterexample :
    is_cross_month_week 2025 12 = true ∧
    pyWeekdayOf (prevMonthLastDay 2025 12) = 6 ∧
    cross_month_first_week_spec 2025 12 = false :=
  ⟨by decide, by decide, by decide⟩

/-- Claim C5, amended: `cross_month_first_week` is true iff day 0 of the
month is not a Saturday — equivalently, iff day 1 of the month is not a
Sunday (weeks of this app run Sunday through Saturday, so the first week
continues from the previous month exactly when the month does not begin on
a Sunday). -/
theorem c5_cross_month_flag_iff_first_day_not_sunday (y m : Nat)
    (hy : 2 ≤ y) (hm1 : 1 ≤ m) (hm : m ≤ 12) :
    is_cross_month_week y m = true ↔ pyWeekday y m 1 ≠ 6 := by
  have hs := serial_prevMonthLastDay y m hy hm1 hm
  unfold is_cross_month_week pyWeekdayOf pyWeekday at *
  simp only [bne_iff_ne, ne_eq, decide_eq_true_eq]
  omega

/-- Witness for C5's amended theorem at March 2026. -/
theorem c5_cross_month_flag_witness :
    (2 ≤ 2026 ∧ 1 ≤ 3 ∧ 3 ≤ 12) ∧
    (is_cross_month_week 2026 3 = true ↔ pyWeekday 2026 3 1 ≠ 6) :=
  ⟨⟨by decide, by decide, by decide⟩,
    c5_cross_month_flag_iff_first_day_not_sunday 2026 3 (by decide) (by decide) (by decide)⟩

namespace Proto3

/-! ## Claim C1 -/

/-- Claim C1, counterexample: in `demoParams`, part-timer P1 requests the
weak (non-strict) holiday role `HOLIDAY_WEAK` on day 5. The claim says the
model leaves `x[P1,5]` free, but the code pins it to 0: the fix list built
from the source differs from the fix list built from the spec's words
exactly there. -/
theorem c1_part_time_fix_counterexample :
    partTimeFixList demoParams ≠ partTimeFixList_spec demoParams ∧
    ("P1", 5, false) ∈ partTimeFixList demoParams ∧
    ("P1", 5, false) ∉ partTimeFixList_spec demoParams ∧
    roleIsHoliday demoParams "HOLIDAY_WEAK" = true ∧
    roleIsStrict demoParams "HOLIDAY_WEAK" = false :=
  ⟨by decide, by decide, by decide, by decide, by decide⟩

/-- Claim C1, amended: when rule H2 is on, every requested role of a
part-time staff pins the shift variable, regardless of strictness — to 0
for any holiday role and to 1 for any non-holiday role; only days without
a request are left free. -/
theorem c1_part_time_fix_amended (p : Params) (h2 : p.sw.h2_on = true)
    (x : Assignment) :
    satisfiesFixes p x ↔
      ∀ s ∈ p.staffList, s.employment = "パート" →
        ∀ d ∈ days p, ∀ r, p.requests s.id d = some r →
          x s.id d = !(roleIsHoliday p r) := by
  unfold satisfiesFixes partTimeFixList requestedDays
  rw [if_pos h2]
  constructor
  · intro hfix s hs hemp d hd r hr
    exact hfix (s.id, d, !(roleIsHoliday p r))
      (List.mem_flatMap.mpr ⟨s, List.mem_filter.mpr ⟨hs, by simp [hemp]⟩,
        List.mem_map.mpr ⟨(d, r), List.mem_filterMap.mpr ⟨d, hd, by simp [hr]⟩, rfl⟩⟩)
  · intro hall t ht
    obtain ⟨s, hs, hmem⟩ := List.mem_flatMap.mp ht
    obtain ⟨⟨d, r⟩, hdr, rfl⟩ := List.mem_map.mp hmem
    obtain ⟨d0, hd0, hreq⟩ := List.mem_filterMap.mp hdr
    obtain ⟨hs1, hs2⟩ := List.mem_filter.mp hs
    simp only [Option.map_eq_some'] at hreq
    obtain ⟨r0, hr0, heq⟩ := hreq
    injection heq with e1 e2
    subst e1
    subst e2
    exact hall s hs1 (by simpa using hs2) d0 hd0 r0 hr0

/-- Witness for C1's amended theorem on the demo instance. -/
theorem c1_part_time_fix_witness :
    demoParams.sw.h2_on = true ∧
    (satisfiesFixes demoParams demoX ↔
      ∀ s ∈ demoParams.staffList, s.employment = "パート" →
        ∀ d ∈ days demoParams, ∀ r, demoParams.requests s.id d = some r →
          demoX s.id d = !(roleIsHoliday demoParams r)) :=
  ⟨rfl, c1_part_time_fix_amended demoParams rfl demoX⟩


/-! ## Claim C2 -/

lemma length_filter_requestedDays (p : Params) (sid : String) (f : String → Bool) :
    ((requestedDays p sid).filter (fun t => f t.2)).length =
      ((days p).filter (fun d =>
        match p.requests sid d with
        | some r => f r
        | none => false)).length := by
  unfold requestedDays
  induction days p with
  | nil => rfl
  | cons d ds ih =>
      cases h : p.requests sid d with
      | none => simpa [List.filterMap_cons, h, List.filter_cons] using ih
      | some r =>
          by_cases hf : f r <;>
            simp [List.filterMap_cons, h, List.filter_cons, hf, ih]

lemma h1TermOfStaff_eq_spec (p : Params) (x : Assignment) (s : StaffRec) :
    h1TermOfStaff p x s = specH1Term p x s := by
  unfold h1TermOfStaff specH1Term specFH specNC specHH
  rw [length_filter_requestedDays p s.id (fun r => nonCountableHolidayRoles.contains r),
    length_filter_requestedDays p s.id (fun r => roleIsHalfHoliday p r)]

/-- Claim C2: when rule H1 is on, the objective carries, for every regular
(non-part-time) staff, the monthly-holiday term
`w_H1 · |2·(FH − NC) + HH − 18|` with `FH` the off days, `NC` the
paid/special/summer-leave requests and `HH` the half-holiday requests; and
it carries no such term for part-time staff. -/
theorem c2_monthly_holiday_term (p : Params) (x : Assignment)
    (h1on : p.sw.h1_on = true) :
    (∀ s ∈ p.staffList, s.id ∉ partTimeIds p →
        (s.id, specH1Term p x s) ∈ h1Terms p x ∧
        specH1Term p x s ∈ objectiveTerms p x) ∧
    (∀ sid ∈ partTimeIds p, ∀ t, (sid, t) ∉ h1Terms p x) := by
  constructor
  · intro s hs hreg
    have hmem : (s.id, specH1Term p x s) ∈ h1Terms p x := by
      unfold h1Terms
      rw [if_pos h1on, ← h1TermOfStaff_eq_spec]
      exact List.mem_map.mpr ⟨s, List.mem_filter.mpr ⟨hs, by simpa using hreg⟩, rfl⟩
    refine ⟨hmem, ?_⟩
    unfold objectiveTerms
    exact List.mem_append.mpr (Or.inl (List.mem_append.mpr (Or.inl
      (List.mem_append.mpr (Or.inl (List.mem_append.mpr (Or.inl
      (List.mem_append.mpr (Or.inl (List.mem_append.mpr (Or.inl
      (List.mem_append.mpr (Or.inl (List.mem_append.mpr (Or.inl
      (List.mem_append.mpr (Or.inl (List.mem_append.mpr (Or.inl
      (List.mem_append.mpr (Or.inl (List.mem_append.mpr (Or.inl
      (List.mem_map.mpr ⟨_, hmem, rfl⟩))))))))))))))))))))))))
  · intro sid hsid t ht
    unfold h1Terms at ht
    rw [if_pos h1on] at ht
    obtain ⟨s, hs, heq⟩ := List.mem_map.mp ht
    obtain ⟨_, hs2⟩ := List.mem_filter.mp hs
    injection heq with e1 e2
    subst e1
    simp at hs2
    exact hs2 hsid

/-- Witness for C2 on the demo instance: R1 is regular, P1 is part-time. -/
theorem c2_monthly_holiday_term_witness :
    (demoParams.sw.h1_on = true ∧ staffR1 ∈ demoParams.staffList ∧
      staffR1.id ∉ partTimeIds demoParams ∧ "P1" ∈ partTimeIds demoParams) ∧
    ((staffR1.id, specH1Term demoParams demoX staffR1) ∈ h1Terms demoParams demoX ∧
      specH1Term demoParams demoX staffR1 ∈ objectiveTerms demoParams demoX) ∧
    (∀ t, ("P1", t) ∉ h1Terms demoParams demoX) :=
  ⟨⟨rfl, by decide, by decide, by decide⟩,
    (c2_monthly_holiday_term demoParams demoX rfl).1 staffR1 (by decide) (by decide),
    (c2_monthly_holiday_term demoParams demoX rfl).2 "P1" (by decide)⟩

/-! ## Claim C3 -/

lemma exists_working_of_one_le_countOn (x : Assignment) (l : List StaffRec) (d : Nat)
    (h : 1 ≤ countOn x l d) : ∃ s ∈ l, x s.id d = true := by
  induction l with
  | nil => simp [countOn, ind] at h
  | cons a as ih =>
      by_cases ha : x a.id d
      · exact ⟨a, List.mem_cons_self a as, ha⟩
      · have : 1 ≤ countOn x as d := by
          simp only [countOn, List.map_cons, List.sum_cons, ind, ha, if_false] at h
          simpa [countOn] using h
        obtain ⟨s, hs, hws⟩ := ih this
        exact ⟨s, List.mem_cons_of_mem a hs, hws⟩

/-- Claim C3: when rule S5 is on, every assignment satisfying the model's
hard constraints has, on every day, at least one recovery-ward PT or
recovery-ward OT working — in sum form and as an explicit witness. -/
theorem c3_kaifukuki_daily_coverage (p : Params) (x : Assignment)
    (h5on : p.sw.s5_on = true) (hc : hardConstraints p x) :
    ∀ d ∈ days p,
      1 ≤ countOn x (kaifukukiPT p) d + countOn x (kaifukukiOT p) d ∧
      ∃ s, (s ∈ kaifukukiPT p ∨ s ∈ kaifukukiOT p) ∧ x s.id d = true := by
  intro d hd
  have hsum := hc.2 h5on d hd
  refine ⟨hsum, ?_⟩
  have : 1 ≤ countOn x (kaifukukiPT p ++ kaifukukiOT p) d := by
    unfold countOn at *
    rw [List.map_append, List.sum_append]
    exact hsum
  obtain ⟨s, hs, hws⟩ := exists_working_of_one_le_countOn x _ d this
  exact ⟨s, List.mem_append.mp hs, hws⟩

/-- Witness for C3 on the demo instance. -/
theorem c3_kaifukuki_daily_coverage_witness :
    (demoParams.sw.s5_on = true ∧ hardConstraints demoParams demoX ∧
      (1 : Nat) ∈ days demoParams) ∧
    (1 ≤ countOn demoX (kaifukukiPT demoParams) 1 +
        countOn demoX (kaifukukiOT demoParams) 1 ∧
      ∃ s, (s ∈ kaifukukiPT demoParams ∨ s ∈ kaifukukiOT demoParams) ∧
        demoX s.id 1 = true) :=
  ⟨⟨rfl, by decide, by decide⟩,
    c3_kaifukuki_daily_coverage demoParams demoX rfl (by decide) 1 (by decide)⟩


/-! ## Claim C7 -/

/-- Claim C7, counterexample: staff R2 has daily-unit capacity 18 and a
requested role with work coefficient 7/10 on day 3. The code delivers
`int(18 · 0.7) = 12` units, while the claim's nearest-integer rounding
gives `round(12.6) = 13`. -/
theorem c7_provided_units_counterexample :
    staffR2.units = 18 ∧
    mult demoParams "R2" 3 = 7 / 10 ∧
    providedUnitsDay demoParams demoXAll (otStaff demoParams) 3 = 12 ∧
    providedUnitsDay_spec demoParams demoXAll (otStaff demoParams) 3 = 13 ∧
    providedUnitsDay demoParams demoXAll (otStaff demoParams) 3 ≠
      providedUnitsDay_spec demoParams demoXAll (otStaff demoParams) 3 := by
  have hot : otStaff demoParams = [staffR2] := by decide
  have hm : mult demoParams "R2" 3 = mkRat 7 10 := by decide
  have hm2 : mult demoParams "R2" 3 = 7 / 10 := by
    rw [hm, Rat.mkRat_eq_div]; norm_num
  have hu : ((staffR2.units : ℚ) * mult demoParams "R2" 3) = 63 / 5 := by
    rw [show staffR2.units = 18 from rfl, hm2]; norm_num
  have hfl : ⌊(63 : ℚ) / 5⌋ = 12 := by
    rw [Int.floor_eq_iff]; norm_num
  have hcode : providedUnitsDay demoParams demoXAll (otStaff demoParams) 3 = 12 := by
    rw [hot]
    unfold providedUnitsDay constantUnit pyInt
    simp only [List.map_cons, List.map_nil, List.sum_cons, List.sum_nil]
    rw [show staffR2.id = "R2" from rfl, hu,
      if_pos (by norm_num : (0 : ℚ) ≤ 63 / 5), hfl]
    simp [demoXAll, ind]
  have hspec : providedUnitsDay_spec demoParams demoXAll (otStaff demoParams) 3 = 13 := by
    rw [hot]
    unfold providedUnitsDay_spec
    simp only [List.map_cons, List.map_nil, List.sum_cons, List.sum_nil]
    rw [show staffR2.id = "R2" from rfl, hu, round_eq,
      show (63 : ℚ) / 5 + 1 / 2 = 131 / 10 by norm_num,
      show ⌊(131 : ℚ) / 10⌋ = 13 by rw [Int.floor_eq_iff]; norm_num]
    simp [demoXAll, ind]
  exact ⟨rfl, hm2, hcode, hspec, by rw [hcode, hspec]; decide⟩

/-- Claim C7, amended: the delivered units of a profession on a day equal
`Σ x[s,d] · ⌊u_s · coef_of(s,d)⌋` — truncation toward zero of the staff's
capacity times the work coefficient (floor, for the nonnegative
coefficients of the sheet), not nearest-integer rounding. -/
theorem c7_provided_units_truncation (p : Params) (x : Assignment)
    (members : List StaffRec) (d : Nat)
    (h : ∀ s ∈ members, 0 ≤ mult p s.id d) :
    providedUnitsDay p x members d =
      (members.map (fun s => ind (x s.id d) * ⌊(s.units : ℚ) * mult p s.id d⌋)).sum := by
  unfold providedUnitsDay constantUnit pyInt
  refine congrArg List.sum (List.map_congr_left ?_)
  intro s hs
  have h0 : 0 ≤ (s.units : ℚ) * mult p s.id d :=
    mul_nonneg (by positivity) (h s hs)
  rw [if_pos h0]

/-- Witness for C7's amended theorem on the demo instance. -/
theorem c7_provided_units_truncation_witness :
    (∀ s ∈ otStaff demoParams, 0 ≤ mult demoParams s.id 3) ∧
    providedUnitsDay demoParams demoXAll (otStaff demoParams) 3 =
      ((otStaff demoParams).map
        (fun s => ind (demoXAll s.id 3) * ⌊(s.units : ℚ) * mult demoParams s.id 3⌋)).sum :=
  ⟨by decide, c7_provided_units_truncation demoParams demoXAll (otStaff demoParams) 3 (by decide)⟩

/-! ## Claim C8 -/

/-- Claim C8, counterexample: `HOLIDAY_HOME` is a weak-holiday role
(holiday, not strict) of the demo settings, yet a working day with that
request renders the role's own symbol 家, not the `WORK_FROM_WEAK` symbol
出. Only the role literally named `HOLIDAY_WEAK` gets `WORK_FROM_WEAK`. -/
theorem c8_weak_symbol_counterexample :
    roleIsHoliday demoParams "HOLIDAY_HOME" = true ∧
    roleIsStrict demoParams "HOLIDAY_HOME" = false ∧
    cellSymbol demoParams.symbolSettings (some "HOLIDAY_HOME") true = "家" ∧
    findOutput demoParams.symbolSettings "WORK_FROM_WEAK" "出" = "出" ∧
    cellSymbol demoParams.symbolSettings (some "HOLIDAY_HOME") true ≠
      findOutput demoParams.symbolSettings "WORK_FROM_WEAK" "出" :=
  ⟨by decide, by decide, by decide, by decide, by decide⟩

/-- Claim C8, amended: on a working day the output symbol is the
`WORK_FROM_WEAK` symbol exactly for the role named `HOLIDAY_WEAK`; every
other requested role (weak-holiday or not) renders its own output symbol,
and `WORK_DEFAULT` is used when no role is present. -/
theorem c8_output_symbol_dispatch (settings : List (String × Behavior)) :
    cellSymbol settings (some "HOLIDAY_WEAK") true = findOutput settings "WORK_FROM_WEAK" "出" ∧
    (∀ r, r ≠ "HOLIDAY_WEAK" →
      cellSymbol settings (some r) true =
        findOutput settings r (findOutput settings "WORK_DEFAULT" "")) ∧
    cellSymbol settings none true = findOutput settings "WORK_DEFAULT" "" := by
  refine ⟨by simp [cellSymbol], ?_, by simp [cellSymbol]⟩
  intro r hr
  have hb : (r == "HOLIDAY_WEAK") = false := by simpa using hr
  simp [cellSymbol, hb]

/-- Witness for C8's amended theorem: the strict paid-leave role on a
working day renders its own symbol. -/
theorem c8_output_symbol_dispatch_witness :
    ("HOLIDAY_PAID" : String) ≠ "HOLIDAY_WEAK" ∧
    cellSymbol demoSettings (some "HOLIDAY_PAID") true =
      findOutput demoSettings "HOLIDAY_PAID" (findOutput demoSettings "WORK_DEFAULT" "") :=
  ⟨by decide, (c8_output_symbol_dispatch demoSettings).2.1 "HOLIDAY_PAID" (by decide)⟩

/-! ## Claim C9 -/

lemma mem_objectiveTerms_of_weekend (p : Params) (x : Assignment) (t : ℤ)
    (h : t ∈ (weekendLimitTerms p x).map Prod.snd) : t ∈ objectiveTerms p x := by
  unfold objectiveTerms
  simp only [List.mem_append]
  tauto

lemma mem_objectiveTerms_of_h5 (p : Params) (x : Assignment) (t : ℤ)
    (h : t ∈ (h5Terms p x).map Prod.snd) : t ∈ objectiveTerms p x := by
  unfold objectiveTerms
  simp only [List.mem_append]
  tauto

/-- Claim C9: for a regular staff with a Sunday cap and no combined weekend
cap, the always-on weekend-cap block puts
`w_weekend · max(0, sundaysWorked − cap)` into the objective for any switch
setting, and, when H5 is on, the H5 block adds a second term
`w_H5 · max(0, sundaysWorked − cap)` for the same overage. -/
theorem c9_double_sunday_penalty (p : Params) (x : Assignment) (s : StaffRec)
    (c : ℤ) (hs : s ∈ p.staffList) (hreg : s.id ∉ partTimeIds p)
    (hwc : s.weekendCap = none) (hsc : s.sundayCap = some c) :
    ((s.id, p.w.hWeekend * max 0 (workedZ x s.id (sundays p) - c)) ∈ weekendLimitTerms p x ∧
      p.w.hWeekend * max 0 (workedZ x s.id (sundays p) - c) ∈ objectiveTerms p x) ∧
    (p.sw.h5_on = true →
      (s.id, p.w.h5 * max 0 (workedZ x s.id (sundays p) - c)) ∈ h5Terms p x ∧
      p.w.h5 * max 0 (workedZ x s.id (sundays p) - c) ∈ objectiveTerms p x) ∧
    (∀ sw2 : Switches, weekendLimitTerms { p with sw := sw2 } x = weekendLimitTerms p x) := by
  have hsreg : s ∈ regularStaff p :=
    List.mem_filter.mpr ⟨hs, by simpa using hreg⟩
  have hwmem : (s.id, p.w.hWeekend * max 0 (workedZ x s.id (sundays p) - c)) ∈
      weekendLimitTerms p x := by
    unfold weekendLimitTerms
    refine List.mem_flatMap.mpr ⟨s, hsreg, ?_⟩
    unfold weekendLimitTermsOfStaff
    rw [hwc, hsc]
    simp
  refine ⟨⟨hwmem, mem_objectiveTerms_of_weekend p x _ (List.mem_map.mpr ⟨_, hwmem, rfl⟩)⟩,
    ?_, fun sw2 => by cases p; rfl⟩
  intro h5on
  have h5mem : (s.id, p.w.h5 * max 0 (workedZ x s.id (sundays p) - c)) ∈ h5Terms p x := by
    unfold h5Terms
    rw [if_pos h5on]
    refine List.mem_filterMap.mpr ⟨s, hsreg, ?_⟩
    rw [hsc]
  exact ⟨h5mem, mem_objectiveTerms_of_h5 p x _ (List.mem_map.mpr ⟨_, h5mem, rfl⟩)⟩

/-- Witness for C9 at the demo instance: R1 has 日曜上限 2 and no 土日上限;
both penalty terms for the same Sunday overage sit in the objective. -/
theorem c9_double_sunday_penalty_witness :
    (staffR1 ∈ demoParams.staffList ∧ staffR1.id ∉ partTimeIds demoParams ∧
      staffR1.weekendCap = none ∧ staffR1.sundayCap = some 2 ∧
      demoParams.sw.h5_on = true) ∧
    (staffR1.id, demoParams.w.hWeekend *
        max 0 (workedZ demoXAll staffR1.id (sundays demoParams) - 2)) ∈
      weekendLimitTerms demoParams demoXAll ∧
    (staffR1.id, demoParams.w.h5 *
        max 0 (workedZ demoXAll staffR1.id (sundays demoParams) - 2)) ∈
      h5Terms demoParams demoXAll :=
  ⟨⟨by decide, by decide, by decide, by decide, rfl⟩,
    (c9_double_sunday_penalty demoParams demoXAll staffR1 2 (by decide) (by decide)
      (by decide) (by decide)).1.1,
    ((c9_double_sunday_penalty demoParams demoXAll staffR1 2 (by decide) (by decide)
      (by decide) (by decide)).2.1 rfl).1⟩

/-! ## Claim C10 -/

/-- Claim C10: with rule S5 on and no recovery-ward PT or OT staff at all,
the hard daily-coverage constraint sums over an empty set, so no assignment
satisfies the model and `solve_shift_model` returns failure with empty
schedule and summary tables. -/
theorem c10_empty_kaifukuki_infeasible (p : Params) (h5on : p.sw.s5_on = true)
    (hpt : kaifukukiPT p = []) (hot : kaifukukiOT p = []) (hne : days p ≠ []) :
    (∀ x, ¬ hardConstraints p x) ∧
    (solve_shift_model p).ok = false ∧
    (solve_shift_model p).schedule = [] ∧
    (solve_shift_model p).summary = [] := by
  have hinfeas : ∀ x, ¬ hardConstraints p x := by
    intro x hc
    obtain ⟨d, hd⟩ := List.exists_mem_of_ne_nil _ hne
    have hcov := hc.2 h5on d hd
    rw [hpt, hot] at hcov
    simp [countOn] at hcov
  have hno : ¬ ∃ x, hardConstraints p x := by
    rintro ⟨x, hx⟩
    exact hinfeas x hx
  refine ⟨hinfeas, ?_, ?_, ?_⟩ <;>
    · unfold solve_shift_model
      rw [dif_neg hno]

/-- Witness for C10 on the demo month with the recovery-ward tags removed. -/
theorem c10_empty_kaifukuki_infeasible_witness :
    (demoParamsNoKaifukuki.sw.s5_on = true ∧
      kaifukukiPT demoParamsNoKaifukuki = [] ∧
      kaifukukiOT demoParamsNoKaifukuki = [] ∧
      days demoParamsNoKaifukuki ≠ []) ∧
    (∀ x, ¬ hardConstraints demoParamsNoKaifukuki x) ∧
    (solve_shift_model demoParamsNoKaifukuki).ok = false :=
  ⟨⟨rfl, by decide, by decide, by decide⟩,
    (c10_empty_kaifukuki_infeasible demoParamsNoKaifukuki rfl (by decide) (by decide)
      (by decide)).1,
    (c10_empty_kaifukuki_infeasible demoParamsNoKaifukuki rfl (by decide) (by decide)
      (by decide)).2.1⟩

end Proto3

end RehaShift
namespace RehaShift
namespace Ono

lemma var_200 :
    sampleVar [2, 0, 0, 0, 0, 0, 0, 0, 0, 0, 0, 0, 0, 0, 0, 0, 0, 0, 0, 0, 0, 0, 0, 0] =
      1 / 6 := by
  unfold sampleVar
  norm_num

lemma var_110 :
    sampleVar [1, 1, 0, 0, 0, 0, 0, 0, 0, 0, 0, 0, 0, 0, 0, 0, 0, 0, 0, 0, 0, 0, 0, 0] =
      11 / 138 := by
  unfold sampleVar
  norm_num

lemma var_011 :
    sampleVar [0, 1, 1, 0, 0, 0, 0, 0, 0, 0, 0, 0, 0, 0, 0, 0, 0, 0, 0, 0, 0, 0, 0, 0] =
      11 / 138 := by
  unfold sampleVar
  norm_num

lemma score_eval (sched : Schedule) (v : ℚ)
    (h : sampleVar ((dailyCounts onoDemo sched ["A", "B"]).map Prod.snd) = v) :
    calculate_total_penalty onoDemo sched = Real.sqrt ((v : ℚ) : ℝ) := by
  unfold calculate_total_penalty
  rw [show onoDemo.job_types = [("PT", ["A", "B"]), ("OT", []), ("ST", [])] from rfl]
  simp only [List.map_cons, List.map_nil, List.sum_cons, List.sum_nil]
  rw [if_neg (by decide)]
  simp only [if_true, add_zero]
  rw [h]

lemma score_base : calculate_total_penalty onoDemo onoBase = Real.sqrt ((1 / 6 : ℚ) : ℝ) :=
  score_eval onoBase (1 / 6) (by rw [show (dailyCounts onoDemo onoBase ["A", "B"]).map Prod.snd =
    [2, 0, 0, 0, 0, 0, 0, 0, 0, 0, 0, 0, 0, 0, 0, 0, 0, 0, 0, 0, 0, 0, 0, 0] from by decide,
    var_200])

lemma score_schedA :
    calculate_total_penalty onoDemo onoSchedA = Real.sqrt ((11 / 138 : ℚ) : ℝ) :=
  score_eval onoSchedA (11 / 138) (by rw [show (dailyCounts onoDemo onoSchedA ["A", "B"]).map Prod.snd =
    [1, 1, 0, 0, 0, 0, 0, 0, 0, 0, 0, 0, 0, 0, 0, 0, 0, 0, 0, 0, 0, 0, 0, 0] from by decide,
    var_110])

lemma score_schedB :
    calculate_total_penalty onoDemo onoSchedB = Real.sqrt ((11 / 138 : ℚ) : ℝ) :=
  score_eval onoSchedB (11 / 138) (by rw [show (dailyCounts onoDemo onoSchedB ["A", "B"]).map Prod.snd =
    [1, 1, 0, 0, 0, 0, 0, 0, 0, 0, 0, 0, 0, 0, 0, 0, 0, 0, 0, 0, 0, 0, 0, 0] from by decide,
    var_110])

lemma score_schedA_move :
    calculate_total_penalty onoDemo (updSched onoSchedA "B" 1 3) =
      Real.sqrt ((11 / 138 : ℚ) : ℝ) :=
  score_eval _ (11 / 138) (by rw [show (dailyCounts onoDemo (updSched onoSchedA "B" 1 3)
    ["A", "B"]).map Prod.snd =
    [0, 1, 1, 0, 0, 0, 0, 0, 0, 0, 0, 0, 0, 0, 0, 0, 0, 0, 0, 0, 0, 0, 0, 0] from by decide,
    var_011])

lemma score_schedB_move :
    calculate_total_penalty onoDemo (updSched onoSchedB "A" 1 3) =
      Real.sqrt ((11 / 138 : ℚ) : ℝ) :=
  score_eval _ (11 / 138) (by rw [show (dailyCounts onoDemo (updSched onoSchedB "A" 1 3)
    ["A", "B"]).map Prod.snd =
    [0, 1, 1, 0, 0, 0, 0, 0, 0, 0, 0, 0, 0, 0, 0, 0, 0, 0, 0, 0, 0, 0, 0, 0] from by decide,
    var_011])

lemma sqrt_small_lt : Real.sqrt ((11 / 138 : ℚ) : ℝ) + 0 < Real.sqrt ((1 / 6 : ℚ) : ℝ) := by
  rw [add_zero]
  apply Real.sqrt_lt_sqrt
  · push_cast
    norm_num
  · push_cast
    norm_num

lemma commit_A :
    calculate_total_penalty onoDemo (updSched onoBase "A" 1 2) +
      (if onoDemo.requests "A" 2 = some "△" then ((onoDemo.delta_penalty_weight : ℚ) : ℝ) else 0) <
      calculate_total_penalty onoDemo onoBase := by
  rw [if_neg (by decide), score_base,
    show updSched onoBase "A" 1 2 = onoSchedA from rfl, score_schedA]
  exact sqrt_small_lt

lemma commit_B :
    calculate_total_penalty onoDemo (updSched onoBase "B" 1 2) +
      (if onoDemo.requests "B" 2 = some "△" then ((onoDemo.delta_penalty_weight : ℚ) : ℝ) else 0) <
      calculate_total_penalty onoDemo onoBase := by
  rw [if_neg (by decide), score_base,
    show updSched onoBase "B" 1 2 = onoSchedB from rfl, score_schedB]
  exact sqrt_small_lt

lemma reject_A2 :
    ¬(calculate_total_penalty onoDemo (updSched onoSchedA "B" 1 3) +
      (if onoDemo.requests "B" 3 = some "△" then ((onoDemo.delta_penalty_weight : ℚ) : ℝ) else 0) <
      calculate_total_penalty onoDemo onoSchedA) := by
  rw [if_neg (by decide), add_zero, score_schedA, score_schedA_move]
  exact lt_irrefl _

lemma reject_B2 :
    ¬(calculate_total_penalty onoDemo (updSched onoSchedB "A" 1 3) +
      (if onoDemo.requests "A" 3 = some "△" then ((onoDemo.delta_penalty_weight : ℚ) : ℝ) else 0) <
      calculate_total_penalty onoDemo onoSchedB) := by
  rw [if_neg (by decide), add_zero, score_schedB, score_schedB_move]
  exact lt_irrefl _

lemma scan_first :
    scanJobs onoDemo id onoBase (calculate_total_penalty onoDemo onoBase)
      onoDemo.job_types = some onoSchedA := by
  rw [show onoDemo.job_types = [("PT", ["A", "B"]), ("OT", []), ("ST", [])] from rfl]
  rw [scanJobs]
  rw [if_neg (by decide)]
  rw [show idxminD (dailyCounts onoDemo onoBase ("PT", ["A", "B"]).2) = some (2, 0) from by decide]
  rw [show idxmaxD (dailyCounts onoDemo onoBase ("PT", ["A", "B"]).2) = some (1, 2) from by decide]
  dsimp only
  rw [if_neg (by decide : ¬((1, 2).2 ≤ ((2 : Nat), (0 : Nat)).2))]
  rw [show id (List.filter
      (fun s => onoBase s 1 == 1 && onoBase s 2 == 0 && ["A", "B"].contains s)
      onoDemo.staffIndex) = ["A", "B"] from by decide]
  rw [tryCandidates]
  rw [if_pos (by decide : onoDemo.requests "A" 2 = some "△" ∨
    onoDemo.requests "A" 2 = none ∨ onoDemo.requests "A" 2 = some "")]
  rw [if_pos (by decide : is_move_valid onoDemo onoBase "A" 1 2 = true)]
  rw [if_pos commit_A]
  rfl

lemma scan_first_rev :
    scanJobs onoDemo (fun l => l.reverse) onoBase
      (calculate_total_penalty onoDemo onoBase) onoDemo.job_types = some onoSchedB := by
  rw [show onoDemo.job_types = [("PT", ["A", "B"]), ("OT", []), ("ST", [])] from rfl]
  rw [scanJobs]
  rw [if_neg (by decide)]
  rw [show idxminD (dailyCounts onoDemo onoBase ("PT", ["A", "B"]).2) = some (2, 0) from by decide]
  rw [show idxmaxD (dailyCounts onoDemo onoBase ("PT", ["A", "B"]).2) = some (1, 2) from by decide]
  dsimp only
  rw [if_neg (by decide : ¬((1, 2).2 ≤ ((2 : Nat), (0 : Nat)).2))]
  rw [show (List.filter
      (fun s => onoBase s 1 == 1 && onoBase s 2 == 0 && ["A", "B"].contains s)
      onoDemo.staffIndex).reverse = ["B", "A"] from by decide]
  rw [tryCandidates]
  rw [if_pos (by decide : onoDemo.requests "B" 2 = some "△" ∨
    onoDemo.requests "B" 2 = none ∨ onoDemo.requests "B" 2 = some "")]
  rw [if_pos (by decide : is_move_valid onoDemo onoBase "B" 1 2 = true)]
  rw [if_pos commit_B]
  rfl

lemma scan_second :
    scanJobs onoDemo id onoSchedA (calculate_total_penalty onoDemo onoSchedA)
      onoDemo.job_types = none := by
  rw [show onoDemo.job_types = [("PT", ["A", "B"]), ("OT", []), ("ST", [])] from rfl]
  rw [scanJobs]
  rw [if_neg (by decide)]
  rw [show idxminD (dailyCounts onoDemo onoSchedA ("PT", ["A", "B"]).2) = some (3, 0) from by decide]
  rw [show idxmaxD (dailyCounts onoDemo onoSchedA ("PT", ["A", "B"]).2) = some (1, 1) from by decide]
  dsimp only
  rw [if_neg (by decide : ¬((1, 1).2 ≤ ((3 : Nat), (0 : Nat)).2))]
  rw [show id (List.filter
      (fun s => onoSchedA s 1 == 1 && onoSchedA s 3 == 0 && ["A", "B"].contains s)
      onoDemo.staffIndex) = ["B"] from by decide]
  rw [tryCandidates]
  rw [if_pos (by decide : onoDemo.requests "B" 3 = some "△" ∨
    onoDemo.requests "B" 3 = none ∨ onoDemo.requests "B" 3 = some "")]
  rw [if_pos (by decide : is_move_valid onoDemo onoSchedA "B" 1 3 = true)]
  rw [if_neg reject_A2]
  rw [tryCandidates]
  dsimp only
  rw [scanJobs]
  rw [if_pos rfl]
  rw [scanJobs]
  rw [if_pos rfl]
  rw [scanJobs]

lemma scan_second_rev :
    scanJobs onoDemo (fun l => l.reverse) onoSchedB
      (calculate_total_penalty onoDemo onoSchedB) onoDemo.job_types = none := by
  rw [show onoDemo.job_types = [("PT", ["A", "B"]), ("OT", []), ("ST", [])] from rfl]
  rw [scanJobs]
  rw [if_neg (by decide)]
  rw [show idxminD (dailyCounts onoDemo onoSchedB ("PT", ["A", "B"]).2) = some (3, 0) from by decide]
  rw [show idxmaxD (dailyCounts onoDemo onoSchedB ("PT", ["A", "B"]).2) = some (1, 1) from by decide]
  dsimp only
  rw [if_neg (by decide : ¬((1, 1).2 ≤ ((3 : Nat), (0 : Nat)).2))]
  rw [show (List.filter
      (fun s => onoSchedB s 1 == 1 && onoSchedB s 3 == 0 && ["A", "B"].contains s)
      onoDemo.staffIndex).reverse = ["A"] from by decide]
  rw [tryCandidates]
  rw [if_pos (by decide : onoDemo.requests "A" 3 = some "△" ∨
    onoDemo.requests "A" 3 = none ∨ onoDemo.requests "A" 3 = some "")]
  rw [if_pos (by decide : is_move_valid onoDemo onoSchedB "A" 1 3 = true)]
  rw [if_neg reject_B2]
  rw [tryCandidates]
  dsimp only
  rw [scanJobs]
  rw [if_pos rfl]
  rw [scanJobs]
  rw [if_pos rfl]
  rw [scanJobs]

lemma improve_id_eval :
    improve_schedule_with_local_search onoDemo id onoBase = onoSchedA := by
  unfold improve_schedule_with_local_search
  show improveLoop onoDemo id (99 + 1) onoBase = onoSchedA
  rw [improveLoop, scan_first]
  show improveLoop onoDemo id (98 + 1) onoSchedA = onoSchedA
  rw [improveLoop, scan_second]

lemma improve_rev_eval :
    improve_schedule_with_local_search onoDemo (fun l => l.reverse) onoBase = onoSchedB := by
  unfold improve_schedule_with_local_search
  show improveLoop onoDemo (fun l => l.reverse) (99 + 1) onoBase = onoSchedB
  rw [improveLoop, scan_first_rev]
  show improveLoop onoDemo (fun l => l.reverse) (98 + 1) onoSchedB = onoSchedB
  rw [improveLoop, scan_second_rev]


lemma foldl_choice_mem {α : Type} (g : α → α → α) (hg : ∀ a b, g a b = a ∨ g a b = b) :
    ∀ (l : List α) (init : α), l.foldl g init ∈ init :: l := by
  intro l
  induction l with
  | nil => intro init; simp
  | cons b rest ih =>
      intro init
      rcases hg init b with h | h
      · rw [List.foldl_cons, h]
        rcases List.mem_cons.mp (ih init) with h3 | h3 <;> simp [h3]
      · rw [List.foldl_cons, h]
        rcases List.mem_cons.mp (ih b) with h3 | h3 <;> simp [h3]

lemma idxminD_mem (l : List (Nat × Nat)) (t : Nat × Nat) (h : idxminD l = some t) :
    t ∈ l := by
  cases l with
  | nil => simp [idxminD] at h
  | cons u rest =>
      simp only [idxminD, Option.some_inj] at h
      have := foldl_choice_mem (fun best v => if v.2 < best.2 then v else best)
        (fun a b => by by_cases hc : b.2 < a.2 <;> simp [hc]) rest u
      rw [h] at this
      exact this

lemma idxmaxD_mem (l : List (Nat × Nat)) (t : Nat × Nat) (h : idxmaxD l = some t) :
    t ∈ l := by
  cases l with
  | nil => simp [idxmaxD] at h
  | cons u rest =>
      simp only [idxmaxD, Option.some_inj] at h
      have := foldl_choice_mem (fun best v => if best.2 < v.2 then v else best)
        (fun a b => by by_cases hc : a.2 < b.2 <;> simp [hc]) rest u
      rw [h] at this
      exact this

lemma mem_dailyCounts (p : OnoParams) (sched : Schedule) (members : List String)
    (t : Nat × Nat) (h : t ∈ dailyCounts p sched members) :
    t.1 ∈ p.weekdays ∧ t.2 = (members.map (fun s => sched s t.1)).sum := by
  unfold dailyCounts at h
  obtain ⟨d, hd, heq⟩ := List.mem_map.mp h
  cases heq
  exact ⟨hd, rfl⟩

lemma frameRel_refl (p : OnoParams) (a : Schedule) : FrameRel p a a :=
  ⟨fun _ _ _ => rfl, fun _ => rfl⟩

lemma frameRel_trans (p : OnoParams) (a b c : Schedule)
    (h1 : FrameRel p a b) (h2 : FrameRel p b c) : FrameRel p a c :=
  ⟨fun t d hd => (h2.1 t d hd).trans (h1.1 t d hd),
    fun t => (h2.2 t).trans (h1.2 t)⟩

lemma frameRel_upd (p : OnoParams) (sched : Schedule) (s : String) (maxD minD : Nat)
    (hnd : p.weekdays.Nodup) (hmax : maxD ∈ p.weekdays) (hmin : minD ∈ p.weekdays)
    (hne : maxD ≠ minD) (h1 : sched s maxD = 1) (h0 : sched s minD = 0) :
    FrameRel p sched (updSched sched s maxD minD) := by
  constructor
  · intro t d hd
    have e1 : (d == maxD) = false := beq_eq_false_iff_ne.mpr (fun e => hd (e ▸ hmax))
    have e2 : (d == minD) = false := beq_eq_false_iff_ne.mpr (fun e => hd (e ▸ hmin))
    simp [updSched, e1, e2]
  · intro t
    by_cases ht : t = s
    · subst ht
      have hm2 : minD ∈ p.weekdays.erase maxD :=
        (List.Nodup.mem_erase_iff hnd).mpr ⟨Ne.symm hne, hmin⟩
      have hperm : p.weekdays.Perm (maxD :: minD :: ((p.weekdays.erase maxD).erase minD)) :=
        (List.perm_cons_erase hmax).trans (List.Perm.cons _ (List.perm_cons_erase hm2))
      have hsum1 := List.Perm.sum_eq (List.Perm.map (fun d => updSched sched t maxD minD t d) hperm)
      have hsum2 := List.Perm.sum_eq (List.Perm.map (fun d => sched t d) hperm)
      rw [hsum1, hsum2]
      simp only [List.map_cons, List.sum_cons]
      have hrest : ∀ d ∈ (p.weekdays.erase maxD).erase minD,
          updSched sched t maxD minD t d = sched t d := by
        intro d hd
        have hd2 : d ∈ p.weekdays.erase maxD :=
          List.mem_of_mem_erase hd
        have hdne2 : d ≠ minD :=
          ((List.Nodup.mem_erase_iff (List.Nodup.erase _ hnd)).mp hd).1
        have hdne1 : d ≠ maxD := ((List.Nodup.mem_erase_iff hnd).mp hd2).1
        simp [updSched, beq_eq_false_iff_ne.mpr hdne1, beq_eq_false_iff_ne.mpr hdne2]
      rw [List.map_congr_left hrest]
      have eA : updSched sched t maxD minD t maxD = 0 := by
        simp [updSched]
      have eB : updSched sched t maxD minD t minD = 1 := by
        simp [updSched, beq_eq_false_iff_ne.mpr (Ne.symm hne)]
      rw [eA, eB, h1, h0,
        show List.map (sched t) ((p.weekdays.erase maxD).erase minD) =
          List.map (fun d => sched t d) ((p.weekdays.erase maxD).erase minD) from rfl]
      omega
    · have he : (t == s) = false := beq_eq_false_iff_ne.mpr ht
      have : ∀ d ∈ p.weekdays, updSched sched s maxD minD t d = sched t d := by
        intro d _
        simp [updSched, he]
      rw [List.map_congr_left this]

lemma tryCandidates_frame (p : OnoParams) (sched : Schedule) (best : ℝ)
    (maxD minD : Nat) (hnd : p.weekdays.Nodup) (hmax : maxD ∈ p.weekdays)
    (hmin : minD ∈ p.weekdays) (hne : maxD ≠ minD) :
    ∀ (cands : List String),
      (∀ s ∈ cands, sched s maxD = 1 ∧ sched s minD = 0) →
      ∀ out, tryCandidates p sched best maxD minD cands = some out →
        FrameRel p sched out := by
  intro cands
  induction cands with
  | nil => intro _ out h; simp [tryCandidates] at h
  | cons s rest ih =>
      intro hall out h
      rw [tryCandidates] at h
      split at h
      · split at h
        · split at h <;> split at h <;>
            first
              | (injection h with h
                 subst h
                 exact frameRel_upd p sched s maxD minD hnd hmax hmin hne
                   (hall s (List.mem_cons_self s rest)).1
                   (hall s (List.mem_cons_self s rest)).2)
              | exact ih (fun u hu => hall u (List.mem_cons_of_mem s hu)) out h
        · exact ih (fun u hu => hall u (List.mem_cons_of_mem s hu)) out h
      · exact ih (fun u hu => hall u (List.mem_cons_of_mem s hu)) out h

lemma scanJobs_frame (p : OnoParams) (sh : List String → List String)
    (hsh : ∀ l, List.Perm (sh l) l) (hnd : p.weekdays.Nodup) (sched : Schedule)
    (best : ℝ) :
    ∀ (jobs : List (String × List String)) (out : Schedule),
      scanJobs p sh sched best jobs = some out → FrameRel p sched out := by
  intro jobs
  induction jobs with
  | nil => intro out h; simp [scanJobs] at h
  | cons jm rest ih =>
      intro out h
      rw [scanJobs] at h
      split at h
      · exact ih out h
      · split at h
        · rename_i mn mx hmn hmx
          split at h
          · exact ih out h
          · rename_i hgt
            split at h
            · rename_i out2 hout2
              injection h with h
              subst h
              have hmnm := mem_dailyCounts p sched jm.2 mn (idxminD_mem _ mn hmn)
              have hmxm := mem_dailyCounts p sched jm.2 mx (idxmaxD_mem _ mx hmx)
              have hlabels : mx.1 ≠ mn.1 := by
                intro e
                apply hgt
                rw [hmxm.2, hmnm.2, e]
              refine tryCandidates_frame p sched best mx.1 mn.1 hnd hmxm.1 hmnm.1
                hlabels _ ?_ out2 hout2
              intro u hu
              have hu2 : u ∈ p.staffIndex.filter (fun s =>
                  sched s mx.1 == 1 && sched s mn.1 == 0 && jm.2.contains s) :=
                (hsh _).mem_iff.mp hu
              have hcond := (List.mem_filter.mp hu2).2
              simp only [Bool.and_eq_true, beq_iff_eq] at hcond
              exact ⟨hcond.1.1, hcond.1.2⟩
            · exact ih out h
        · exact ih out h

lemma improveLoop_frame (p : OnoParams) (sh : List String → List String)
    (hsh : ∀ l, List.Perm (sh l) l) (hnd : p.weekdays.Nodup) :
    ∀ (k : Nat) (sched : Schedule), FrameRel p sched (improveLoop p sh k sched) := by
  intro k
  induction k with
  | zero => intro sched; exact frameRel_refl p sched
  | succ n ih =>
      intro sched
      rw [improveLoop]
      cases hscan : scanJobs p sh sched (calculate_total_penalty p sched) p.job_types with
      | none => exact frameRel_refl p sched
      | some sched2 =>
          exact frameRel_trans p sched sched2 _
            (scanJobs_frame p sh hsh hnd sched _ p.job_types sched2 hscan) (ih sched2)


lemma improve_outputs_differ :
    improve_schedule_with_local_search onoDemo id onoBase ≠
      improve_schedule_with_local_search onoDemo (fun l => l.reverse) onoBase := by
  rw [improve_id_eval, improve_rev_eval]
  intro h
  exact absurd (congrFun (congrFun h "A") 2) (by decide)

/-- Claim C4, counterexample: the improver calls `random.shuffle` on the
candidate list (line 317); with identical inputs, the runs in which the
shuffle yields the order A,B and the order B,A end in different output
assignments, so the improver is not deterministic in its inputs. -/
theorem c4_determinism_counterexample :
    improve_schedule_with_local_search onoDemo id onoBase ≠
      improve_schedule_with_local_search onoDemo (fun l => l.reverse) onoBase :=
  improve_outputs_differ

/-- Claim C4, amended: within a step the candidate staff are considered in
a randomly shuffled order, and the output depends on that order: there are
two genuine reorderings (permutations) of the candidate list under which
identical inputs produce different output assignments. -/
theorem c4_shuffle_dependence :
    ∃ sh1 sh2 : List String → List String,
      (∀ l, List.Perm (sh1 l) l) ∧ (∀ l, List.Perm (sh2 l) l) ∧
      improve_schedule_with_local_search onoDemo sh1 onoBase ≠
        improve_schedule_with_local_search onoDemo sh2 onoBase :=
  ⟨id, fun l => l.reverse, fun l => List.Perm.refl l,
    fun l => List.reverse_perm l, improve_outputs_differ⟩

/-- Claim C6, counterexample: staff A is part-time, yet the improver moves
A from day 1 to day 2 — neither the candidate selection nor `is_move_valid`
checks employment kind. -/
theorem c6_part_time_moved_counterexample :
    "A" ∈ onoDemo.part_time_staff_ids ∧
    improve_schedule_with_local_search onoDemo id onoBase "A" 2 = 1 ∧
    onoBase "A" 2 = 0 := by
  refine ⟨by decide, ?_, by decide⟩
  rw [improve_id_eval]
  decide

/-- Claim C6, amended: the improver can change part-time staff cells, since
no employment check exists; what it does preserve, for every staff
(part-time included), is the frame: cells outside the weekday columns are
never touched and each staff's total number of working weekdays is
unchanged (every committed move swaps one working weekday for one off
weekday of the same staff). -/
theorem c6_improver_frame (p : OnoParams) (sh : List String → List String)
    (hsh : ∀ l, List.Perm (sh l) l) (hnd : p.weekdays.Nodup) (base : Schedule) :
    (∀ t d, d ∉ p.weekdays →
      improve_schedule_with_local_search p sh base t d = base t d) ∧
    (∀ t, (p.weekdays.map
        (fun d => improve_schedule_with_local_search p sh base t d)).sum =
      (p.weekdays.map (fun d => base t d)).sum) :=
  improveLoop_frame p sh hsh hnd 100 base

/-- Witness for C6's amended theorem on the demo run. -/
theorem c6_improver_frame_witness :
    ((∀ l : List String, List.Perm (id l) l) ∧ onoDemo.weekdays.Nodup) ∧
    (∀ t d, d ∉ onoDemo.weekdays →
      improve_schedule_with_local_search onoDemo id onoBase t d = onoBase t d) ∧
    (∀ t, (onoDemo.weekdays.map
        (fun d => improve_schedule_with_local_search onoDemo id onoBase t d)).sum =
      (onoDemo.weekdays.map (fun d => onoBase t d)).sum) :=
  ⟨⟨fun l => List.Perm.refl l, by decide⟩,
    c6_improver_frame onoDemo id (fun l => List.Perm.refl l) (by decide) onoBase⟩

end Ono
end RehaShift
